import Mathlib

/-!
# PayrollHub — verification of the payout and time-tracking core

Shallow embedding of the payout engine (webhook handler and manual
calculator) and the time-clock logic of the repository, with theorems
settling the frozen claims.  Machine arithmetic on currency/rates is
modelled over `ℚ` (the JavaScript sources use IEEE doubles only as plain
decimal arithmetic on modest values; the claims are about formula shape,
not float rounding).  UTC instants are integer seconds; wall-clock
minutes are integers.
-/

namespace Payroll

/-- An employee row as fetched by the webhook
(`src/supabase/functions/project-webhook/index.ts`, employees select) and
by the calculator (`src/unnamed/part_003`).  Rates are the five
collaboration-tiered percentage fields; `none` models SQL NULL. -/
structure Employee where
  id : Nat
  name : String
  status : String
  pay_scale_type : String
  hourly_rate : Option ℚ
  project_rate_1_member : Option ℚ
  project_rate_2_members : Option ℚ
  project_rate_3_members : Option ℚ
  project_rate_4_members : Option ℚ
  project_rate_5_members : Option ℚ
  deriving DecidableEq, Repr

/-- The webhook request body (`WebhookPayload` interface in
`project-webhook/index.ts`).  `job_id := none` models an omitted field. -/
structure WebhookPayload where
  project_value : ℚ
  project_title : String
  quoted_by_name : String
  first_time : Bool
  employees_assigned : List String
  job_id : Option String
  deriving DecidableEq, Repr

/-- A row of the `payouts` table as built by the webhook handler. -/
structure PayoutRow where
  employee_id : Nat
  employee_name : String
  calculation_type : String
  amount : ℚ
  rate : ℚ
  project_value : Option ℚ
  collaborators_count : Option Nat
  project_title : Option String
  quoted_by_id : Option Nat
  quoted_by_name : Option String
  is_first_time : Bool
  source : String
  job_id : Option String
  deriving DecidableEq, Repr

/-- Backing-store state visible to the webhook handler: the `employees`
table, the `payouts` table, and the parsed numeric values of the
`app_settings` rows (a key/value association list; `parseFloat` of an
unparseable string yields NaN which is falsy, exactly like a parsed 0,
so we store the parsed rational directly). -/
structure Db where
  employees : List Employee
  payouts : List PayoutRow
  settings : List (String × ℚ)
  deriving DecidableEq, Repr

/-- Rate-selection `switch` of the webhook handler
(`project-webhook/index.ts` lines 100–118): tier by collaborator count,
`default` reuses the 5-member rate; `|| 0` turns NULL into 0. -/
def webhookSelectRate (e : Employee) (collaboratorsCount : Nat) : ℚ :=
  match collaboratorsCount with
  | 1 => e.project_rate_1_member.getD 0
  | 2 => e.project_rate_2_members.getD 0
  | 3 => e.project_rate_3_members.getD 0
  | 4 => e.project_rate_4_members.getD 0
  | 5 => e.project_rate_5_members.getD 0
  | _ => e.project_rate_5_members.getD 0

/-- The employees query of the webhook: names in `employees_assigned`,
`status = 'active'`, `pay_scale_type = 'project'`. -/
def resolveEmployees (db : Db) (payload : WebhookPayload) : List Employee :=
  db.employees.filter fun e =>
    e.name ∈ payload.employees_assigned ∧ e.status = "active" ∧
      e.pay_scale_type = "project"

/-- The quoted-by lookup: skipped when the name is empty (JS falsy);
`maybeSingle()` yields the row when exactly one matches, otherwise an
error which the handler downgrades to "no quoted-by employee". -/
def resolveQuotedBy (db : Db) (payload : WebhookPayload) : Option Employee :=
  if payload.quoted_by_name = "" then none
  else
    match db.employees.filter (fun e => e.name = payload.quoted_by_name) with
    | [q] => some q
    | _ => none

/-- The `quoted_by_name` field of a base payout:
`quotedByEmployee?.name || payload.quoted_by_name || null`. -/
def baseQuotedByName (payload : WebhookPayload) (quotedBy : Option Employee) :
    Option String :=
  match quotedBy with
  | some q => some q.name
  | none => if payload.quoted_by_name = "" then none else some payload.quoted_by_name

/-- The per-employee loop of the webhook handler (lines 96–146): select
the tier rate, skip the employee when it is zero (`continue`), otherwise
emit the base payout line with the unrounded amount
`project_value * rate / 100`. -/
def basePayouts (payload : WebhookPayload) (emps : List Employee)
    (quotedBy : Option Employee) : List PayoutRow :=
  emps.filterMap fun e =>
    let rate := webhookSelectRate e emps.length
    if rate = 0 then none
    else some
      { employee_id := e.id
        employee_name := e.name
        calculation_type := "project"
        amount := payload.project_value * rate / 100
        rate := rate
        project_value := some payload.project_value
        collaborators_count := some emps.length
        project_title := some payload.project_title
        quoted_by_id := quotedBy.map (fun q => q.id)
        quoted_by_name := baseQuotedByName payload quotedBy
        is_first_time := false
        source := "auto"
        job_id := payload.job_id }

/-- Setting lookup with JS `parseFloat(v) || default` semantics: a
missing row or a parsed value of 0 (also the NaN of an unparseable
string) falls back to the default. -/
def settingOr (db : Db) (key : String) (deflt : ℚ) : ℚ :=
  match db.settings.lookup key with
  | some v => if v = 0 then deflt else v
  | none => deflt

/-- First-time bonus line (lines 149–181): only when `first_time` and a
quoted-by employee resolved; rate from `first_time_bonus_percentage`
(default 30). -/
def firstTimeBonus (payload : WebhookPayload) (db : Db) (n : Nat)
    (quotedBy : Option Employee) : List PayoutRow :=
  match quotedBy with
  | some q =>
    if payload.first_time then
      let bonusRate := settingOr db "first_time_bonus_percentage" 30
      [{ employee_id := q.id
         employee_name := q.name ++ " (First Time Bonus)"
         calculation_type := "project"
         amount := payload.project_value * bonusRate / 100
         rate := bonusRate
         project_value := some payload.project_value
         collaborators_count := some n
         project_title := some payload.project_title
         quoted_by_id := some q.id
         quoted_by_name := some q.name
         is_first_time := true
         source := "auto"
         job_id := payload.job_id }]
    else []
  | none => []

/-- Quoted-by bonus line for non-first-time projects (lines 184–216);
rate from `quoted_by_bonus_percentage` (default 2). -/
def quotedByBonus (payload : WebhookPayload) (db : Db) (n : Nat)
    (quotedBy : Option Employee) : List PayoutRow :=
  match quotedBy with
  | some q =>
    if payload.first_time then []
    else
      let bonusRate := settingOr db "quoted_by_bonus_percentage" 2
      [{ employee_id := q.id
         employee_name := q.name ++ " (Quoted By Bonus)"
         calculation_type := "project"
         amount := payload.project_value * bonusRate / 100
         rate := bonusRate
         project_value := some payload.project_value
         collaborators_count := some n
         project_title := some payload.project_title
         quoted_by_id := some q.id
         quoted_by_name := some q.name
         is_first_time := false
         source := "auto"
         job_id := payload.job_id }]
  | none => []

/-- Outcome of one webhook invocation, mirroring the handler's HTTP
responses. -/
inductive WebhookResult where
  /-- 400 "Missing required fields". -/
  | missingFields : WebhookResult
  /-- 400 "No matching project-based employees found". -/
  | noMatchingEmployees : WebhookResult
  /-- 400 "No payouts could be calculated". -/
  | noPayouts : WebhookResult
  /-- 409 "Duplicate payouts", with the existing rows found. -/
  | duplicate (existing : List PayoutRow) : WebhookResult
  /-- 200 success, with the inserted rows. -/
  | ok (inserted : List PayoutRow) : WebhookResult
  deriving DecidableEq, Repr

/-- Duplicate check (lines 229–257): only when a `job_id` is supplied;
existing `source='auto'` rows with that `job_id` whose `employee_id` is
among the employees resolved by this call. -/
def duplicateRows (db : Db) (jobId : String) (emps : List Employee) :
    List PayoutRow :=
  db.payouts.filter fun p =>
    p.job_id = some jobId ∧ p.source = "auto" ∧
      p.employee_id ∈ emps.map (fun e => e.id)

/-- The full payout list a webhook call computes before any duplicate
check or insert: base lines for the resolved employees, then the
first-time and quoted-by bonus lines. -/
def computedPayouts (payload : WebhookPayload) (db : Db) : List PayoutRow :=
  let emps := resolveEmployees db payload
  let quotedBy := resolveQuotedBy db payload
  basePayouts payload emps quotedBy ++
    firstTimeBonus payload db emps.length quotedBy ++
    quotedByBonus payload db emps.length quotedBy

/-- The whole webhook handler as a state transformer on the store:
validation, employee resolution, payout computation, empty-payout
rejection, duplicate check, insert.  JS falsiness makes
`project_value = 0` and an empty title count as missing fields. -/
def webhook (payload : WebhookPayload) (db : Db) : WebhookResult × Db :=
  if payload.project_value = 0 ∨ payload.project_title = "" ∨
      payload.employees_assigned = [] then
    (.missingFields, db)
  else
    let emps := resolveEmployees db payload
    if emps = [] then (.noMatchingEmployees, db)
    else
      let payouts := computedPayouts payload db
      if payouts = [] then (.noPayouts, db)
      else
        match payload.job_id with
        | some j =>
          let existing := duplicateRows db j emps
          if existing = [] then
            (.ok payouts, { db with payouts := db.payouts ++ payouts })
          else (.duplicate existing, db)
        | none =>
          (.ok payouts, { db with payouts := db.payouts ++ payouts })

/-- Whether a webhook result is the 200 success response. -/
def WebhookResult.isOk : WebhookResult → Bool
  | .ok _ => true
  | _ => false

/-- The rows inserted by a webhook call (empty unless it succeeded). -/
def WebhookResult.insertedRows : WebhookResult → List PayoutRow
  | .ok rows => rows
  | _ => []

/-! ## Manual payroll calculator (`src/unnamed/part_003`) -/

/-- One line of the calculator's result table (`PayoutResult`). -/
structure PayoutResult where
  employeeId : Nat
  employeeName : String
  amount : ℚ
  rate : ℚ
  payType : String
  deriving DecidableEq, Repr

/-- Rate-selection `switch` of `PayrollCalculator.calculatePayouts`
(part_003 lines 312–331): textually the same tiering as the webhook,
kept as its own definition because it lives in a different file. -/
def calcSelectRate (e : Employee) (collaborationCount : Nat) : ℚ :=
  match collaborationCount with
  | 1 => e.project_rate_1_member.getD 0
  | 2 => e.project_rate_2_members.getD 0
  | 3 => e.project_rate_3_members.getD 0
  | 4 => e.project_rate_4_members.getD 0
  | 5 => e.project_rate_5_members.getD 0
  | _ => e.project_rate_5_members.getD 0

/-- Manual start/end time-of-day hours computation
(`PayrollCalculator.calculateHours`, part_003 lines 257–274): minutes
difference, adding a day when the end is before the start (overnight). -/
def calcHoursManual (startHour startMin endHour endMin : Nat) : ℚ :=
  let startMinutes : Int := startHour * 60 + startMin
  let endMinutes : Int := endHour * 60 + endMin
  let totalMinutes : Int := endMinutes - startMinutes
  let totalMinutes : Int :=
    if totalMinutes < 0 then 24 * 60 - startMinutes + endMinutes else totalMinutes
  (totalMinutes : ℚ) / 60

/-- The loop body of `PayrollCalculator.calculatePayouts` (part_003
lines 298–343): every resolved selected employee yields one line; the
rate/amount are nonzero only when the calculation type matches the
employee's pay-scale type.  `hours` is the already-computed
`calculateHours()` value, `projectVal` the parsed project value. -/
def calcBaseResults (selectedEmployees : List Nat) (employees : List Employee)
    (calculationType : String) (projectVal : ℚ) (hours : ℚ) : List PayoutResult :=
  let collaborationCount := selectedEmployees.length
  selectedEmployees.filterMap fun employeeId =>
    (employees.find? (fun e => e.id = employeeId)).map fun e =>
      if calculationType = "hourly" ∧ e.pay_scale_type = "hourly" then
        { employeeId := e.id, employeeName := e.name
          amount := e.hourly_rate.getD 0 * hours
          rate := e.hourly_rate.getD 0, payType := e.pay_scale_type }
      else if calculationType = "project" ∧ e.pay_scale_type = "project" then
        let rate := calcSelectRate e collaborationCount
        { employeeId := e.id, employeeName := e.name
          amount := projectVal * rate / 100
          rate := rate, payType := e.pay_scale_type }
      else
        { employeeId := e.id, employeeName := e.name
          amount := 0, rate := 0, payType := e.pay_scale_type }

/-- Result list of `PayrollCalculator.calculatePayouts` (part_003 lines
295–360): base lines plus, only for first-time project calculations
with a resolved quoted-by employee, one bonus line at the hard-coded
30% rate.  No other bonus line exists on this path. -/
def calcPayoutResults (selectedEmployees : List Nat) (employees : List Employee)
    (calculationType : String) (projectVal : ℚ) (hours : ℚ)
    (isFirstTime : Bool) (quotedById : Option Nat) : List PayoutResult :=
  let base := calcBaseResults selectedEmployees employees calculationType
    projectVal hours
  base ++
    match quotedById with
    | some qid =>
      if isFirstTime ∧ calculationType = "project" then
        match employees.find? (fun e => e.id = qid) with
        | some q =>
          [{ employeeId := q.id
             employeeName := q.name ++ " (First Time Bonus)"
             amount := projectVal * 30 / 100
             rate := 30, payType := "project" }]
        | none => []
      else []
    | none => []

/-! ## Time clock (`src/src/components/TimeTracking.tsx` and the
`calculate_total_hours` trigger of migration `20250821102618`) -/

/-- A `time_entries` row.  Instants are UTC seconds. -/
structure TimeEntry where
  id : Nat
  employee_id : Nat
  check_in_time : Int
  check_out_time : Option Int
  status : String
  total_hours : Option ℚ
  deriving DecidableEq, Repr

/-- The `calculate_total_hours` BEFORE UPDATE trigger: when the update
sets a check-out time on a row that had none, derive `total_hours` as
elapsed seconds / 3600 and force the status to `checked_out`. -/
def calculateTotalHoursTrigger (old new : TimeEntry) : TimeEntry :=
  match new.check_out_time, old.check_out_time with
  | some t, none =>
    { new with
      total_hours := some (((t - new.check_in_time : Int) : ℚ) / 3600)
      status := "checked_out" }
  | _, _ => new

/-- Checkout: `handleCheckOut` (TimeTracking.tsx lines 195–245) through the
trigger: the update writes `check_out_time := now` (a fresh UTC
instant) and `status := 'checked_out'`. -/
def checkOut (e : TimeEntry) (now : Int) : TimeEntry :=
  calculateTotalHoursTrigger e
    { e with check_out_time := some now, status := "checked_out" }

/-- Fetch window of `fetchTimeEntries` (TimeTracking.tsx lines 85–115): only entries
whose check-in lies within the last 48 hours are loaded. -/
def fetchWindow (entries : List TimeEntry) (now : Int) : List TimeEntry :=
  entries.filter fun e => now - 48 * 3600 ≤ e.check_in_time

/-- The already-checked-in guard of `handleCheckIn` (TimeTracking.tsx
lines 130–142), evaluated over the fetched entries. -/
def alreadyCheckedIn (visible : List TimeEntry) (employeeId : Nat) : Bool :=
  visible.any fun e => e.employee_id = employeeId ∧ e.status = "checked_in"

/-- Check-in as a state transformer on the `time_entries` table:
fetch the 48-hour window, apply the guard, and on success insert a
fresh `checked_in` row stamped with the current UTC instant.
Returns `none` (the "Already Checked In" error, nothing inserted) or
`some` updated table. -/
def checkInOp (entries : List TimeEntry) (newId employeeId : Nat) (now : Int) :
    Option (List TimeEntry) :=
  if alreadyCheckedIn (fetchWindow entries now) employeeId then none
  else some (entries ++
    [{ id := newId, employee_id := employeeId, check_in_time := now
       check_out_time := none, status := "checked_in", total_hours := none }])

/-! ## Admin time-entry edit dialogs

Two variants exist.  The one embedded in `TimeTracking.tsx` (lines
533–590) edits in the entry's stored offset, combines both new
wall-clock times with the check-in's local calendar date and rolls the
checkout forward a day when it would precede the check-in.  The
standalone `src/src/components/EditTimeEntryDialog.tsx` (lines 40–78)
sets the hours on each timestamp's own original date in the viewer's
zone, with no roll.  Instants here are minutes; `off` is the
JavaScript `getTimezoneOffset()` convention (minutes behind UTC). -/

/-- Start of the local calendar day containing local minute `t`. -/
def dayStart (t : Int) : Int := t - t % 1440

/-- The `toLocalTime` helper of the offset-based dialog:
`addMinutes(date, -offset)`. -/
def toLocalTimeOffset (utc off : Int) : Int := utc - off

/-- Outcome of an edit-dialog save: the new UTC check-in and check-out
instants (minutes) and the recomputed `total_hours`. -/
structure EditSaveResult where
  checkInUTC : Int
  checkOutUTC : Int
  totalHours : ℚ
  deriving DecidableEq, Repr

/-- Save path `handleSave` of the offset-based dialog (TimeTracking.tsx lines
533–567), for a save that supplies a checkout time: both new times are
set on the check-in's local date, the checkout rolls forward one day
when it falls before the new check-in, and both are converted back to
UTC with the same stored offset. -/
def editSaveOffset (check_in_utc off : Int) (inHour inMin outHour outMin : Nat) :
    EditSaveResult :=
  let base := dayStart (toLocalTimeOffset check_in_utc off)
  let newLocalCheckIn := base + inHour * 60 + inMin
  let newCheckInUTC := newLocalCheckIn + off
  let rawLocalCheckOut := base + outHour * 60 + outMin
  let newLocalCheckOut :=
    if rawLocalCheckOut < newLocalCheckIn then rawLocalCheckOut + 1440
    else rawLocalCheckOut
  let newCheckOutUTC := newLocalCheckOut + off
  { checkInUTC := newCheckInUTC
    checkOutUTC := newCheckOutUTC
    totalHours := ((newCheckOutUTC - newCheckInUTC : Int) : ℚ) / 60 }

/-- Save path `handleSave` of the standalone `EditTimeEntryDialog.tsx` (lines
40–62), for a save that supplies a checkout time: the new check-in time
is set on the check-in's date and the new checkout time on the
checkout's own original date (falling back to the check-in date), in
the viewer's zone `viewerOff`, with no overnight roll. -/
def editSaveNoRoll (check_in_utc : Int) (check_out_utc : Option Int)
    (viewerOff : Int) (inHour inMin outHour outMin : Nat) : EditSaveResult :=
  let newCheckIn :=
    dayStart (check_in_utc - viewerOff) + inHour * 60 + inMin + viewerOff
  let outBase := check_out_utc.getD check_in_utc
  let newCheckOut :=
    dayStart (outBase - viewerOff) + outHour * 60 + outMin + viewerOff
  { checkInUTC := newCheckIn
    checkOutUTC := newCheckOut
    totalHours := ((newCheckOut - newCheckIn : Int) : ℚ) / 60 }

/-! ## Timezone conversion helpers (`src/unnamed/part_005` lines
643–652)

`toUserLocalTime` / `fromUserLocalTime` wrap `toZonedTime` /
`fromZonedTime` of the date-fns-tz library, which is not part of this
repository.  A timezone is modelled as its UTC-offset function (seconds
added to a UTC instant to obtain the wall clock). -/

/-- A timezone as an offset profile: `off t` is the offset in seconds in
force at UTC instant `t` (negative west of Greenwich). -/
structure TzModel where
  off : Int → Int

/-- Conversion `toUserLocalTime` (part_005 line 644): project the UTC instant onto
the zone's wall clock — `toZonedTime` shifts the instant by the offset
in force at it. -/
def toUserLocalTime (tz : TzModel) (t : Int) : Int := t + tz.off t

/-- Conversion `fromUserLocalTime` (part_005 line 650).  Modelled from the spec:
the underlying `fromZonedTime` of date-fns-tz is not in the repository;
the spec calls it the "inverse, producing the UTC instant a local
wall-clock time in tz corresponds to", which the library realises by an
offset lookup at the wall clock read as a UTC instant, refined once at
the resulting guess. -/
def fromUserLocalTime (tz : TzModel) (l : Int) : Int :=
  l - tz.off (l - tz.off l)

/-- A fixed-offset timezone. -/
def fixedTz (o : Int) : TzModel := ⟨fun _ => o⟩

/-- America/Chicago around the 2025-11-02 fall-back transition,
seconds within that UTC day: offset −5h (CDT) before 07:00 UTC, −6h
(CST) from then on. -/
def chicagoFallBack : TzModel :=
  ⟨fun t => if t < 25200 then -18000 else -21600⟩

/-! ## Storage rounding

`payouts.amount` is `NUMERIC(10,2)` (migration `20250821091348`), so
the value is rounded to two decimals when the row is stored. -/

/-- Round to 2 decimal places, as the `NUMERIC(10,2)` column does. -/
def round2 (x : ℚ) : ℚ := (round (100 * x) : ℚ) / 100

/-- The amount of a payout row as persisted by the `NUMERIC(10,2)`
column. -/
def storedAmount (p : PayoutRow) : ℚ := round2 p.amount

/-! ## Concrete fixtures used by witnesses and counterexamples -/

/-- Active project employee whose 2-member rate is zero. -/
def empA : Employee :=
  { id := 1, name := "A", status := "active", pay_scale_type := "project"
    hourly_rate := none
    project_rate_1_member := some 10, project_rate_2_members := some 0
    project_rate_3_members := none, project_rate_4_members := none
    project_rate_5_members := none }

/-- Active project employee with a 20% 2-member rate. -/
def empB : Employee :=
  { id := 2, name := "B", status := "active", pay_scale_type := "project"
    hourly_rate := none
    project_rate_1_member := some 10, project_rate_2_members := some 20
    project_rate_3_members := none, project_rate_4_members := none
    project_rate_5_members := none }

/-- Active project employee with a 30% 2-member rate. -/
def empC : Employee :=
  { id := 3, name := "C", status := "active", pay_scale_type := "project"
    hourly_rate := none
    project_rate_1_member := some 10, project_rate_2_members := some 30
    project_rate_3_members := none, project_rate_4_members := none
    project_rate_5_members := none }

/-- Active project employee with every tier rate zero or NULL. -/
def empZ : Employee :=
  { id := 4, name := "Z", status := "active", pay_scale_type := "project"
    hourly_rate := none
    project_rate_1_member := some 0, project_rate_2_members := none
    project_rate_3_members := none, project_rate_4_members := none
    project_rate_5_members := none }

/-- Store holding the three employees A, B, C with no payouts. -/
def dbABC : Db := { employees := [empA, empB, empC], payouts := [], settings := [] }

/-- Store holding only the zero-rate employee Z. -/
def dbZ : Db := { employees := [empZ], payouts := [], settings := [] }

/-- Webhook call 1: job "J", assignees A and B. -/
def payloadAB : WebhookPayload :=
  { project_value := 1000, project_title := "T", quoted_by_name := ""
    first_time := false, employees_assigned := ["A", "B"], job_id := some "J" }

/-- Webhook call 2: job "J" again, assignees A and C (overlap on A). -/
def payloadAC : WebhookPayload :=
  { project_value := 1000, project_title := "T", quoted_by_name := ""
    first_time := false, employees_assigned := ["A", "C"], job_id := some "J" }

/-- Webhook call on Z with Z itself as quoted-by, first-time, no job id. -/
def payloadZ : WebhookPayload :=
  { project_value := 1000, project_title := "T", quoted_by_name := "Z"
    first_time := true, employees_assigned := ["Z"], job_id := none }

/-- Webhook call on Z with no quoted-by name and no job id. -/
def payloadZ0 : WebhookPayload :=
  { project_value := 1000, project_title := "T", quoted_by_name := ""
    first_time := false, employees_assigned := ["Z"], job_id := none }

/-- Webhook call on B alone with no quoted-by name and no job id. -/
def payloadB0 : WebhookPayload :=
  { project_value := 1000, project_title := "T", quoted_by_name := ""
    first_time := false, employees_assigned := ["B"], job_id := none }

/-- The base payout line the webhook computes for employee B under
`payloadAB` (2 collaborators, 20% rate on a 1000 project). -/
def rowB : PayoutRow :=
  { employee_id := 2, employee_name := "B", calculation_type := "project"
    amount := 200, rate := 20, project_value := some 1000
    collaborators_count := some 2, project_title := some "T"
    quoted_by_id := none, quoted_by_name := none, is_first_time := false
    source := "auto", job_id := some "J" }

/-- An open (`checked_in`) entry for employee 7 stamped at UTC second 0. -/
def staleEntry : TimeEntry :=
  { id := 1, employee_id := 7, check_in_time := 0, check_out_time := none
    status := "checked_in", total_hours := none }

/-! ## Theorems -/

/-- C1: in both the webhook rate-selection switch and the calculator's,
a collaborator count of 1–5 selects the employee's matching
`project_rate_{count}_member(s)` field (NULL read as 0 by the `|| 0`
guard), and every count above 5 saturates to the 5-member rate — the
lookup is never interpolated. -/
theorem tiered_rate_saturation (e : Employee) (n : Nat) :
    (webhookSelectRate e 1 = e.project_rate_1_member.getD 0 ∧
      webhookSelectRate e 2 = e.project_rate_2_members.getD 0 ∧
      webhookSelectRate e 3 = e.project_rate_3_members.getD 0 ∧
      webhookSelectRate e 4 = e.project_rate_4_members.getD 0 ∧
      webhookSelectRate e 5 = e.project_rate_5_members.getD 0) ∧
    (calcSelectRate e 1 = e.project_rate_1_member.getD 0 ∧
      calcSelectRate e 2 = e.project_rate_2_members.getD 0 ∧
      calcSelectRate e 3 = e.project_rate_3_members.getD 0 ∧
      calcSelectRate e 4 = e.project_rate_4_members.getD 0 ∧
      calcSelectRate e 5 = e.project_rate_5_members.getD 0) ∧
    (5 < n →
      webhookSelectRate e n = e.project_rate_5_members.getD 0 ∧
      calcSelectRate e n = e.project_rate_5_members.getD 0) := by
  refine ⟨⟨rfl, rfl, rfl, rfl, rfl⟩, ⟨rfl, rfl, rfl, rfl, rfl⟩, fun h => ?_⟩
  obtain ⟨k, rfl⟩ : ∃ k, n = k + 6 := ⟨n - 6, by omega⟩
  exact ⟨rfl, rfl⟩

/-- Witness for C1: employee B at counts 2 and 7. -/
theorem tiered_rate_saturation_witness :
    webhookSelectRate empB 2 = empB.project_rate_2_members.getD 0 ∧
    webhookSelectRate empB 7 = empB.project_rate_5_members.getD 0 ∧
    calcSelectRate empB 7 = empB.project_rate_5_members.getD 0 :=
  ⟨(tiered_rate_saturation empB 7).1.2.1,
    ((tiered_rate_saturation empB 7).2.2 (by decide)).1,
    ((tiered_rate_saturation empB 7).2.2 (by decide)).2⟩

/-- C3: checking out an open (`checked_in`, no checkout time) entry at
UTC instant `now` stores that instant, flips the status, and derives
`total_hours` as the elapsed UTC seconds divided by 3600; when the
checkout instant is not before the check-in instant the result is
non-negative. -/
theorem checkout_total_hours (e : TimeEntry) (now : Int)
    (hstat : e.status = "checked_in") (hopen : e.check_out_time = none) :
    (checkOut e now).check_out_time = some now ∧
    (checkOut e now).status = "checked_out" ∧
    (checkOut e now).total_hours
      = some (((now - e.check_in_time : Int) : ℚ) / 3600) ∧
    (e.check_in_time ≤ now →
      0 ≤ ((checkOut e now).total_hours.getD 0)) := by
  have hred : checkOut e now
      = { e with
          check_out_time := some now
          status := "checked_out"
          total_hours := some (((now - e.check_in_time : Int) : ℚ) / 3600) } := by
    simp [checkOut, calculateTotalHoursTrigger, hopen]
  refine ⟨by rw [hred], by rw [hred], by rw [hred], fun hle => ?_⟩
  rw [hred]
  have : (0 : ℚ) ≤ ((now - e.check_in_time : Int) : ℚ) / 3600 :=
    div_nonneg (by exact_mod_cast Int.sub_nonneg.mpr hle) (by norm_num)
  simpa using this

/-- Witness for C3: an entry checked in at second 100 checked out at
second 3700 yields exactly one hour. -/
theorem checkout_total_hours_witness :
    (checkOut staleEntry 172800).check_out_time = some 172800 ∧
    (checkOut staleEntry 172800).total_hours
      = some (((172800 - staleEntry.check_in_time : Int) : ℚ) / 3600) ∧
    0 ≤ ((checkOut staleEntry 172800).total_hours.getD 0) :=
  ⟨(checkout_total_hours staleEntry 172800 rfl rfl).1,
    (checkout_total_hours staleEntry 172800 rfl rfl).2.2.1,
    (checkout_total_hours staleEntry 172800 rfl rfl).2.2.2 (by decide)⟩

/-- C5: the calculator's manual hours are the end/start time-of-day
difference, wrapping by 24 hours when the end is earlier than the
start; the result is never negative, and 22:00→06:00 gives exactly 8
hours. -/
theorem manual_hours_overnight (sh sm eh em : Nat)
    (hsh : sh < 24) (hsm : sm < 60) :
    ((sh * 60 + sm : Int) ≤ (eh * 60 + em : Int) →
      calcHoursManual sh sm eh em
        = (((eh * 60 + em) - (sh * 60 + sm) : Int) : ℚ) / 60) ∧
    ((eh * 60 + em : Int) < (sh * 60 + sm : Int) →
      calcHoursManual sh sm eh em
        = ((24 * 60 - (sh * 60 + sm) + (eh * 60 + em) : Int) : ℚ) / 60) ∧
    0 ≤ calcHoursManual sh sm eh em ∧
    calcHoursManual 22 0 6 0 = 8 := by
  refine ⟨fun hle => ?_, fun hlt => ?_, ?_, by norm_num [calcHoursManual]⟩
  · simp only [calcHoursManual]
    rw [if_neg (by omega)]
  · simp only [calcHoursManual]
    rw [if_pos (by omega)]
  · simp only [calcHoursManual]
    split_ifs with h
    · exact div_nonneg (by exact_mod_cast (by omega :
        (0 : Int) ≤ 24 * 60 - (sh * 60 + sm) + (eh * 60 + em))) (by norm_num)
    · exact div_nonneg (by exact_mod_cast (by omega :
        (0 : Int) ≤ (eh * 60 + em) - (sh * 60 + sm))) (by norm_num)

/-- Witness for C5: the overnight pair 22:00 → 06:00. -/
theorem manual_hours_overnight_witness :
    calcHoursManual 22 0 6 0
      = ((24 * 60 - (22 * 60 + 0) + (6 * 60 + 0) : Int) : ℚ) / 60 ∧
    0 ≤ calcHoursManual 22 0 6 0 ∧
    calcHoursManual 22 0 6 0 = 8 :=
  ⟨(manual_hours_overnight 22 0 6 0 (by decide) (by decide)).2.1 (by decide),
    (manual_hours_overnight 22 0 6 0 (by decide) (by decide)).2.2.1,
    (manual_hours_overnight 22 0 6 0 (by decide) (by decide)).2.2.2⟩

/-- C10: the manual calculator's first-time bonus line always carries
the hard-coded 30% rate (`calcPayoutResults` reads no app setting: it
has no settings input, unlike the webhook's `firstTimeBonus`), and a
non-first-time calculation emits no bonus line at all even with a
quoted-by employee selected. -/
theorem calc_first_time_bonus_hardcoded (sel : List Nat)
    (emps : List Employee) (ct : String) (pv hrs : ℚ) (qid : Nat)
    (q : Employee) (hq : emps.find? (fun e => e.id = qid) = some q) :
    (ct = "project" →
      calcPayoutResults sel emps ct pv hrs true (some qid)
        = calcBaseResults sel emps ct pv hrs ++
          [{ employeeId := q.id
             employeeName := q.name ++ " (First Time Bonus)"
             amount := pv * 30 / 100, rate := 30, payType := "project" }]) ∧
    calcPayoutResults sel emps ct pv hrs false (some qid)
      = calcBaseResults sel emps ct pv hrs := by
  constructor
  · intro hct
    simp [calcPayoutResults, hct, hq]
  · simp [calcPayoutResults]

/-- Witness for C10: selecting B with B as quoted-by on a first-time
1000-value project yields the base line plus a 30% (300) bonus line. -/
theorem calc_first_time_bonus_hardcoded_witness :
    calcPayoutResults [2] [empB] "project" 1000 0 true (some 2)
      = calcBaseResults [2] [empB] "project" 1000 0 ++
        [{ employeeId := empB.id
           employeeName := empB.name ++ " (First Time Bonus)"
           amount := 1000 * 30 / 100, rate := 30, payType := "project" }] ∧
    calcPayoutResults [2] [empB] "project" 1000 0 false (some 2)
      = calcBaseResults [2] [empB] "project" 1000 0 :=
  ⟨(calc_first_time_bonus_hardcoded [2] [empB] "project" 1000 0 2 empB
      (by decide)).1 rfl,
    (calc_first_time_bonus_hardcoded [2] [empB] "project" 1000 0 2 empB
      (by decide)).2⟩

/-- C4 counterexample: through the standalone `EditTimeEntryDialog`
save path (no overnight roll), editing the checkout time of a
same-day entry (check-in 10:00, checkout 12:00, viewer at UTC) to
08:00 — earlier than the check-in — stores `total_hours = -2`: the
checkout date does not roll forward and the stored value is negative,
so the claimed universal roll/non-negativity fails on this edit path. -/
theorem edit_no_roll_counterexample :
    (8 * 60 + 0 < 10 * 60 + 0) ∧
    (editSaveNoRoll 600 (some 720) 0 10 0 8 0).totalHours = -2 ∧
    (editSaveNoRoll 600 (some 720) 0 10 0 8 0).totalHours < 0 := by
  refine ⟨by norm_num, ?_, ?_⟩ <;> norm_num [editSaveNoRoll, dayStart]

/-- C4 (amended): through the offset-based edit dialog embedded in
`TimeTracking.tsx`, both new wall-clock times are combined with the
check-in's local calendar date (derived with the entry's stored
offset) and converted back to UTC with that same offset; when the
edited checkout wall clock is earlier than the edited check-in wall
clock the checkout rolls forward one day, and the recomputed
`total_hours` is never negative.  The standalone
`EditTimeEntryDialog.tsx` variant lacks the roll (see the
counterexample). -/
theorem edit_offset_overnight_roll (ci off : Int) (ih im oh om : Nat)
    (hih : ih < 24) (him : im < 60) :
    (editSaveOffset ci off ih im oh om).checkInUTC
      = dayStart (toLocalTimeOffset ci off) + (ih * 60 + im : Int) + off ∧
    ((oh * 60 + om : Int) < (ih * 60 + im : Int) →
      (editSaveOffset ci off ih im oh om).checkOutUTC
        = dayStart (toLocalTimeOffset ci off) + (oh * 60 + om : Int)
            + 1440 + off) ∧
    ((ih * 60 + im : Int) ≤ (oh * 60 + om : Int) →
      (editSaveOffset ci off ih im oh om).checkOutUTC
        = dayStart (toLocalTimeOffset ci off) + (oh * 60 + om : Int) + off) ∧
    0 ≤ (editSaveOffset ci off ih im oh om).totalHours := by
  simp only [editSaveOffset]
  refine ⟨by ring, fun h => ?_, fun h => ?_, ?_⟩
  · rw [if_pos (by omega)]
    ring
  · rw [if_neg (by omega)]
    ring
  · split_ifs with h
    · exact div_nonneg (by exact_mod_cast (by omega : (0 : Int) ≤
        dayStart (toLocalTimeOffset ci off) + ↑oh * 60 + ↑om + 1440 + off
          - (dayStart (toLocalTimeOffset ci off) + ↑ih * 60 + ↑im + off)))
        (by norm_num)
    · exact div_nonneg (by exact_mod_cast (by omega : (0 : Int) ≤
        dayStart (toLocalTimeOffset ci off) + ↑oh * 60 + ↑om + off
          - (dayStart (toLocalTimeOffset ci off) + ↑ih * 60 + ↑im + off)))
        (by norm_num)

/-- Witness for the amended C4: entry at UTC minute 600 with a +300
stored offset, edited to check-in 10:00 and checkout 08:00 — the
checkout rolls to the next local day and the duration is
non-negative. -/
theorem edit_offset_overnight_roll_witness :
    (editSaveOffset 600 300 10 0 8 0).checkOutUTC
      = dayStart (toLocalTimeOffset 600 300) + (8 * 60 + 0 : Int)
          + 1440 + 300 ∧
    0 ≤ (editSaveOffset 600 300 10 0 8 0).totalHours :=
  ⟨(edit_offset_overnight_roll 600 300 10 0 8 0 (by norm_num)
      (by norm_num)).2.1 (by norm_num),
    (edit_offset_overnight_roll 600 300 10 0 8 0 (by norm_num)
      (by norm_num)).2.2.2⟩

/-- C6 counterexample: in the Chicago fall-back offset profile the UTC
instants 23400 (01:30 CDT) and 27000 (01:30 CST) project to the same
wall clock 5400, so `fromUserLocalTime` cannot round-trip both; with
the library's offset resolution it returns 23400, and the instant
27000 violates the claimed identity. -/
theorem tz_roundtrip_counterexample :
    toUserLocalTime chicagoFallBack 23400
      = toUserLocalTime chicagoFallBack 27000 ∧
    ¬(fromUserLocalTime chicagoFallBack
          (toUserLocalTime chicagoFallBack 23400) = 23400 ∧
      fromUserLocalTime chicagoFallBack
          (toUserLocalTime chicagoFallBack 27000) = 27000) ∧
    fromUserLocalTime chicagoFallBack
        (toUserLocalTime chicagoFallBack 27000) = 23400 := by
  refine ⟨by decide, fun hc => ?_, by decide⟩
  have := hc.2
  revert this
  decide

/-- C6 (amended): the local/UTC round trip
`fromUserLocalTime (toUserLocalTime t) = t` holds exactly when the
offset the conversion resolves for the produced wall clock agrees with
the offset in force at `t` — true for every instant of a fixed-offset
zone and for every instant whose wall clock is unambiguous, but
violated at a DST fall-back instant (see the counterexample). -/
theorem tz_roundtrip_unambiguous (tz : TzModel) (t : Int)
    (h : tz.off (toUserLocalTime tz t - tz.off (toUserLocalTime tz t))
      = tz.off t) :
    fromUserLocalTime tz (toUserLocalTime tz t) = t := by
  simp only [toUserLocalTime, fromUserLocalTime] at h ⊢
  omega

/-- Witness for the amended C6: a fixed-offset zone (UTC−6) round-trips
the instant 1000. -/
theorem tz_roundtrip_unambiguous_witness :
    fromUserLocalTime (fixedTz (-21600))
      (toUserLocalTime (fixedTz (-21600)) 1000) = 1000 :=
  tz_roundtrip_unambiguous (fixedTz (-21600)) 1000 rfl

/-- C9 counterexample: employee 7 has an open `checked_in` entry
stamped at UTC second 0, but at `now = 172801` that entry falls outside
the 48-hour fetch window, so the guard misses it: check-in succeeds and
a second open row is inserted — the claimed universal rejection fails
for open entries older than 48 hours. -/
theorem checkin_guard_counterexample :
    staleEntry.status = "checked_in" ∧ staleEntry.employee_id = 7 ∧
    (checkInOp [staleEntry] 2 7 172801).isSome = true ∧
    ((checkInOp [staleEntry] 2 7 172801).getD []).length = 2 := by
  decide

/-- C9 (amended): check-in for an employee is rejected (nothing
inserted) precisely when the employee has a `checked_in` entry whose
check-in instant lies within the 48-hour fetch window; otherwise — in
particular when an open entry is older than 48 hours — a fresh
`checked_in` row is appended. -/
theorem checkin_guard_window (entries : List TimeEntry)
    (newId empId : Nat) (now : Int) :
    ((∃ e ∈ entries, e.employee_id = empId ∧ e.status = "checked_in" ∧
        now - 48 * 3600 ≤ e.check_in_time) →
      checkInOp entries newId empId now = none) ∧
    ((¬ ∃ e ∈ entries, e.employee_id = empId ∧ e.status = "checked_in" ∧
        now - 48 * 3600 ≤ e.check_in_time) →
      checkInOp entries newId empId now = some (entries ++
        [{ id := newId, employee_id := empId, check_in_time := now
           check_out_time := none, status := "checked_in"
           total_hours := none }])) := by
  have key : alreadyCheckedIn (fetchWindow entries now) empId = true ↔
      ∃ e ∈ entries, e.employee_id = empId ∧ e.status = "checked_in" ∧
        now - 48 * 3600 ≤ e.check_in_time := by
    simp only [alreadyCheckedIn, fetchWindow, List.any_eq_true,
      List.mem_filter, decide_eq_true_eq]
    constructor
    · rintro ⟨e, ⟨he, hw⟩, hid, hst⟩
      exact ⟨e, he, hid, hst, hw⟩
    · rintro ⟨e, he, hid, hst, hw⟩
      exact ⟨e, ⟨he, hw⟩, hid, hst⟩
  constructor
  · intro h
    unfold checkInOp
    rw [if_pos (key.mpr h)]
  · intro h
    unfold checkInOp
    rw [if_neg (fun hc => h (key.mp hc))]

/-- Witness for the amended C9: with the open entry inside the window
(`now = 1000`) check-in is rejected; with no qualifying entry
(`now = 172801`) the insert proceeds. -/
theorem checkin_guard_window_witness :
    checkInOp [staleEntry] 2 7 1000 = none ∧
    checkInOp [staleEntry] 2 7 172801 = some ([staleEntry] ++
      [{ id := 2, employee_id := 7, check_in_time := 172801
         check_out_time := none, status := "checked_in"
         total_hours := none }]) :=
  ⟨(checkin_guard_window [staleEntry] 2 7 1000).1 (by decide),
    (checkin_guard_window [staleEntry] 2 7 172801).2 (by decide)⟩

/-- C2 counterexample: both calls carry `job_id = "J"` and overlap on
assignee "A"; the first call succeeds and inserts a `source='auto'` row
(for B — A's 2-member rate is zero, so A is skipped).  The second call
resolves A and C, finds no existing row for either, and also succeeds,
inserting a new payout row — so the claimed unconditional 409 on
overlapping `employees_assigned` fails. -/
theorem webhook_dedup_gap_counterexample :
    "A" ∈ payloadAB.employees_assigned ∧ "A" ∈ payloadAC.employees_assigned ∧
    payloadAB.job_id = some "J" ∧ payloadAC.job_id = some "J" ∧
    (webhook payloadAB dbABC).1.isOk = true ∧
    (∀ p ∈ (webhook payloadAB dbABC).1.insertedRows, p.source = "auto") ∧
    (webhook payloadAB dbABC).1.insertedRows ≠ [] ∧
    (webhook payloadAC (webhook payloadAB dbABC).2).1.isOk = true ∧
    (webhook payloadAC (webhook payloadAB dbABC).2).2.payouts.length
      = (webhook payloadAB dbABC).2.payouts.length + 1 := by
  decide

/-- C2 (amended): with a supplied `job_id`, the second call returns 409
and leaves the payouts table unchanged exactly when some employee it
resolves already carries a `source='auto'` payout with that `job_id` —
in particular whenever an overlapping assigned employee received a row
from the first call; an overlapping employee that was skipped
(zero rate) leaves no row, and the call proceeds.  With `job_id`
omitted no duplicate check is performed and the insert proceeds. -/
theorem webhook_dedup_conflict (payload : WebhookPayload) (db : Db) :
    (∀ j, payload.job_id = some j →
      ¬(payload.project_value = 0 ∨ payload.project_title = "" ∨
          payload.employees_assigned = []) →
      resolveEmployees db payload ≠ [] →
      computedPayouts payload db ≠ [] →
      duplicateRows db j (resolveEmployees db payload) ≠ [] →
      webhook payload db
        = (.duplicate (duplicateRows db j (resolveEmployees db payload)),
           db)) ∧
    (payload.job_id = none →
      ¬(payload.project_value = 0 ∨ payload.project_title = "" ∨
          payload.employees_assigned = []) →
      resolveEmployees db payload ≠ [] →
      computedPayouts payload db ≠ [] →
      webhook payload db
        = (.ok (computedPayouts payload db),
           { db with payouts := db.payouts ++ computedPayouts payload db })) := by
  constructor
  · intro j hj hv hne hp hdup
    simp only [webhook, hj]
    rw [if_neg hv, if_neg hne, if_neg hp, if_neg hdup]
  · intro hj hv hne hp
    simp only [webhook, hj]
    rw [if_neg hv, if_neg hne, if_neg hp]

/-- Witness for the amended C2: replaying `payloadAB` against the store
the first call produced yields the 409/unchanged-state response, and
the job-id-free `payloadB0` call inserts with no duplicate check. -/
theorem webhook_dedup_conflict_witness :
    webhook payloadAB (webhook payloadAB dbABC).2
      = (.duplicate (duplicateRows (webhook payloadAB dbABC).2 "J"
          (resolveEmployees (webhook payloadAB dbABC).2 payloadAB)),
         (webhook payloadAB dbABC).2) ∧
    webhook payloadB0 dbABC
      = (.ok (computedPayouts payloadB0 dbABC),
         { dbABC with
            payouts := dbABC.payouts ++ computedPayouts payloadB0 dbABC }) :=
  ⟨(webhook_dedup_conflict payloadAB (webhook payloadAB dbABC).2).1 "J" rfl
      (by decide) (by decide) (by decide) (by decide),
    (webhook_dedup_conflict payloadB0 dbABC).2 rfl
      (by decide) (by decide) (by decide)⟩

/-- C7 counterexample: the single resolved employee Z has a zero rate,
yet because Z also resolves as the quoted-by employee of this
first-time project, a bonus line keeps the payout list non-empty: the
handler answers 200 and inserts one row instead of the claimed 400
"No payouts could be calculated" with no insert. -/
theorem webhook_zero_rate_counterexample :
    resolveEmployees dbZ payloadZ = [empZ] ∧
    (∀ e ∈ resolveEmployees dbZ payloadZ,
      webhookSelectRate e (resolveEmployees dbZ payloadZ).length = 0) ∧
    (webhook payloadZ dbZ).1.isOk = true ∧
    (webhook payloadZ dbZ).2.payouts.length = 1 := by
  decide

/-- C7 (amended): when at least one employee resolves, every resolved
employee has a zero (or absent) rate for the resolved collaborator
count, and additionally no quoted-by employee resolves (so no bonus
line is emitted), the handler rejects with 400 "No payouts could be
calculated" and inserts nothing; each zero-rate employee is skipped
rather than failing the request, which errs only on an empty computed
payout list. -/
theorem webhook_no_payouts_rejection (payload : WebhookPayload) (db : Db)
    (hv : ¬(payload.project_value = 0 ∨ payload.project_title = "" ∨
        payload.employees_assigned = []))
    (hne : resolveEmployees db payload ≠ [])
    (hz : ∀ e ∈ resolveEmployees db payload,
      webhookSelectRate e (resolveEmployees db payload).length = 0)
    (hq : resolveQuotedBy db payload = none) :
    webhook payload db = (.noPayouts, db) := by
  have hbase : basePayouts payload (resolveEmployees db payload) none = [] := by
    simp only [basePayouts, List.filterMap_eq_nil_iff]
    intro e he
    simp [hz e he]
  have hcomp : computedPayouts payload db = [] := by
    simp only [computedPayouts, hq, hbase, firstTimeBonus, quotedByBonus,
      List.nil_append, List.append_nil]
  simp only [webhook]
  rw [if_neg hv, if_neg hne, if_pos hcomp]

/-- Witness for the amended C7: zero-rate employee Z with no quoted-by
name — the call is rejected with the empty-payouts error and the store
is unchanged. -/
theorem webhook_no_payouts_rejection_witness :
    webhook payloadZ0 dbZ = (.noPayouts, dbZ) :=
  webhook_no_payouts_rejection payloadZ0 dbZ (by decide) (by decide)
    (by decide) (by decide)

/-- C8: every base payout line of the webhook carries the unrounded
amount `project_value * rate / 100` where `rate` is the tier rate of
its employee; rounding to two decimals happens only at storage
(`NUMERIC(10,2)`), and the base lines' amounts do not depend on the
quoted-by resolution that drives the bonus lines. -/
theorem base_amount_round2 (payload : WebhookPayload) (db : Db)
    (p : PayoutRow)
    (hp : p ∈ basePayouts payload (resolveEmployees db payload)
        (resolveQuotedBy db payload)) :
    p.amount = payload.project_value * p.rate / 100 ∧
    storedAmount p = round2 (payload.project_value * p.rate / 100) ∧
    (∃ e ∈ resolveEmployees db payload, p.employee_id = e.id ∧
      p.rate = webhookSelectRate e (resolveEmployees db payload).length) ∧
    (∀ q₁ q₂ : Option Employee,
      (basePayouts payload (resolveEmployees db payload) q₁).map
          PayoutRow.amount
        = (basePayouts payload (resolveEmployees db payload) q₂).map
            PayoutRow.amount) := by
  have hind : ∀ q₁ q₂ : Option Employee,
      (basePayouts payload (resolveEmployees db payload) q₁).map
          PayoutRow.amount
        = (basePayouts payload (resolveEmployees db payload) q₂).map
            PayoutRow.amount := by
    intro q₁ q₂
    simp only [basePayouts, List.map_filterMap]
    congr 1
    funext e
    by_cases hx : webhookSelectRate e (resolveEmployees db payload).length = 0 <;>
      simp [hx]
  simp only [basePayouts, List.mem_filterMap] at hp
  obtain ⟨e, he, hfe⟩ := hp
  by_cases h : webhookSelectRate e (resolveEmployees db payload).length = 0
  · rw [if_pos h] at hfe
    exact absurd hfe (by simp)
  · rw [if_neg h] at hfe
    obtain rfl := Option.some_inj.mp hfe
    exact ⟨rfl, rfl, ⟨e, he, rfl, rfl⟩, hind⟩

/-- Membership fact: `rowB` is exactly the base line the webhook computes for B under
`payloadAB` against `dbABC`. -/
theorem rowB_mem : rowB ∈ basePayouts payloadAB
    (resolveEmployees dbABC payloadAB) (resolveQuotedBy dbABC payloadAB) := by
  have hres : resolveEmployees dbABC payloadAB = [empA, empB] := by decide
  have hquo : resolveQuotedBy dbABC payloadAB = none := by decide
  rw [hres, hquo]
  simp [basePayouts, webhookSelectRate, baseQuotedByName, empA, empB,
    payloadAB, rowB, List.filterMap_cons]
  norm_num

/-- Witness for C8: the base line for employee B under `payloadAB`. -/
theorem base_amount_round2_witness :
    rowB.amount = payloadAB.project_value * rowB.rate / 100 ∧
    storedAmount rowB = round2 (payloadAB.project_value * rowB.rate / 100) :=
  ⟨(base_amount_round2 payloadAB dbABC rowB rowB_mem).1,
    (base_amount_round2 payloadAB dbABC rowB rowB_mem).2.1⟩

end Payroll
